import Mathlib

/-!
Verification of the cross-thread task-execution bridge of the
Autodesk-Fusion-360-MCP-Server repository (file MCP/MCP.py), as a shallow
embedding in Lean 4.

Modelling conventions:
- Python runtime values that travel through the bridge (JSON request
  bodies, task-tuple elements, stored task responses) are embedded as the
  inductive type PyVal.  Python floats are represented as rationals: the
  bridge never performs float arithmetic, it only parses literals and
  passes them through, so this representation is exact for everything the
  bridge itself does.
- The response dictionary (response_dict) is embedded as an association
  list from Int task ids to stored PyVal dictionaries, with Python dict
  assignment, membership and pop semantics.
- The ~40 geometry handlers call the Fusion 360 API and are opaque to the
  bridge; they are modelled by an oracle of type HandlerExec giving, per
  operation name and positional-argument list, either a returned payload
  or a raised exception (message plus formatted traceback).
-/

/-- Embedded Python runtime value as it travels through the bridge. -/
inductive PyVal where
  | pyNone : PyVal
  | pyBool (b : Bool) : PyVal
  | pyInt (n : Int) : PyVal
  | pyFloat (q : ℚ) : PyVal
  | pyStr (s : String) : PyVal
  | pyList (xs : List PyVal) : PyVal
  | pyDict (fields : List (String × PyVal)) : PyVal

open PyVal

/-- Python truthiness of an embedded value (bool(v)). -/
def truthy : PyVal → Bool
  | pyNone => false
  | pyBool b => b
  | pyInt n => n ≠ 0
  | pyFloat q => q ≠ 0
  | pyStr s => s ≠ ""
  | pyList xs => !xs.isEmpty
  | pyDict fs => !fs.isEmpty

/-- Lookup of a key in an embedded dict field list (d[k] or d.get(k)). -/
def dictGet : List (String × PyVal) → String → Option PyVal
  | [], _ => none
  | (k', v) :: rest, k => if k' = k then some v else dictGet rest k

/-- Python d.get(k) on a dict value: none when the receiver is not a dict
or the key is absent. -/
def pyGet (v : PyVal) (k : String) : Option PyVal :=
  match v with
  | pyDict fs => dictGet fs k
  | _ => none

/-- Python str()/f-string formatting of an embedded value, used for the
task-name part of response messages.  The bridge only ever formats
strings, ints, bools and None here; float and container formatting is a
simple approximation of the Python repr and is never exercised by the
bridge. -/
def pyFormat : PyVal → String
  | pyNone => "None"
  | pyBool b => if b then "True" else "False"
  | pyInt n => toString n
  | pyFloat q => toString q
  | pyStr s => s
  | pyList _ => "[...]"
  | pyDict _ => "\x7b...\x7d"

/-- The correlation store: response_dict in MCP.py, an association list
from int task ids to stored response dictionaries. -/
def Store := List (Int × PyVal)

/-- Python dict assignment d[k] = v: overwrite in place when the key is
present, append otherwise. -/
def storeSet : Store → Int → PyVal → Store
  | [], k, v => [(k, v)]
  | (k', v') :: rest, k, v =>
    if k' = k then (k', v) :: rest else (k', v') :: storeSet rest k v

/-- Python membership and indexing: k in d, d[k]. -/
def storeGet : Store → Int → Option PyVal
  | [], _ => none
  | (k', v) :: rest, k => if k' = k then some v else storeGet rest k

/-- Python d.pop(k): the store after removing the entry for k. -/
def storeErase : Store → Int → Store
  | [], _ => []
  | (k', v) :: rest, k =>
    if k' = k then rest else (k', v) :: storeErase rest k

/-- The five-key response dictionary built by set_task_response (MCP.py
lines 41-47): completed is always set to True. -/
def mkResponse (success : Bool) (message : String)
    (error entity_data : PyVal) : PyVal :=
  pyDict
    [("success", pyBool success),
     ("message", pyStr message),
     ("error", error),
     ("completed", pyBool true),
     ("entity_data", entity_data)]

/-- Embedding of set_task_response (MCP.py lines 29-47): stores the
response dictionary under the task id.  The Python defaults are
error=None and entity_data=None. -/
def set_task_response (store : Store) (task_id : Int) (success : Bool)
    (message : String) (error : PyVal) (entity_data : PyVal) : Store :=
  storeSet store task_id (mkResponse success message error entity_data)

/-- The synthesized timeout response of get_task_response (MCP.py line
59): a three-key dictionary, with no completed and no entity_data key. -/
def timeoutResponse : PyVal :=
  pyDict
    [("success", pyBool false),
     ("message", pyStr "Task timeout"),
     ("error", pyStr "Task did not complete within timeout period")]

/-- One poll-loop check of get_task_response (MCP.py line 55):
task_id in response_dict and response_dict[task_id].get('completed'). -/
def pollCheck (s : Store) (task_id : Int) : Option PyVal :=
  match storeGet s task_id with
  | some r => if truthy ((pyGet r "completed").getD pyNone) then some r else none
  | none => none

/-- Embedding of the polling loop of get_task_response (MCP.py lines
49-59) over the discrete sequence of store contents observed at each
successive 50 ms poll; the length of the list is the number of polls the
timeout allows.  The result is the returned response together with the
store state produced by the single consuming pop, or none when the call
performed no mutation (the timeout path mutates nothing). -/
def get_task_response : List Store → Int → PyVal × Option Store
  | [], _ => (timeoutResponse, none)
  | s :: rest, task_id =>
    match pollCheck s task_id with
    | some r => (r, some (storeErase s task_id))
    | none => get_task_response rest task_id

/-- Embedding of generate_task_id (MCP.py lines 61-65) as observed by a
single thread: the counter is incremented and the new value returned. -/
def generate_task_id (counter : Int) : Int × Int :=
  (counter + 1, counter + 1)

/-- The ids returned by n successive sequential generate_task_id calls
starting from a given counter value. -/
def seqIds (counter : Int) : Nat → List Int
  | 0 => []
  | n + 1 =>
    let (counter', id) := generate_task_id counter
    id :: seqIds counter' n

/-!
Concurrency model for generate_task_id.  The Python statement
task_id_counter += 1 is not protected by any lock (response_lock guards
only response_dict), and in CPython it compiles to a load of the global,
an add, and a store, between which a thread switch may occur.  A call is
therefore modelled as two atomic steps per thread: load (read the counter
and compute its successor into a thread-local temporary) and store (write
the temporary back and return it).
-/

/-- State of two Front Door threads racing through generate_task_id:
the shared counter, each thread's pending temporary (loaded successor not
yet stored), and each thread's returned id once its call finished. -/
structure RaceState where
  counter : Int
  temp1 : Option Int
  ret1 : Option Int
  temp2 : Option Int
  ret2 : Option Int
deriving DecidableEq

/-- Initial race state: counter as given, both calls not yet started. -/
def raceInit (counter : Int) : RaceState :=
  ⟨counter, none, none, none, none⟩

/-- One scheduler step: the chosen thread (false = thread 1, true =
thread 2) performs its next atomic step of generate_task_id, or nothing
when its call already returned. -/
def raceStep (s : RaceState) (who : Bool) : RaceState :=
  if who then
    match s.ret2, s.temp2 with
    | some _, _ => s
    | none, none => { s with temp2 := some (s.counter + 1) }
    | none, some t => { s with counter := t, temp2 := none, ret2 := some t }
  else
    match s.ret1, s.temp1 with
    | some _, _ => s
    | none, none => { s with temp1 := some (s.counter + 1) }
    | none, some t => { s with counter := t, temp1 := none, ret1 := some t }

/-- Run of a finite schedule of interleaved steps of the two calls. -/
def raceRun (counter : Int) (schedule : List Bool) : RaceState :=
  schedule.foldl raceStep (raceInit counter)

/-!
Dispatcher embedding: TaskEventHandler.process_task (MCP.py lines
100-199) and the queue-drain loop of TaskEventHandler.notify (lines
84-95).
-/

/-- Outcome of invoking one opaque geometry handler: either the returned
payload, or a raised exception carrying str(e) and the
traceback.format_exc() text. -/
inductive HandlerOutcome where
  | ok (payload : PyVal) : HandlerOutcome
  | raises (msg : String) (tb : String) : HandlerOutcome

/-- Oracle modelling the geometry handlers: for an operation name and the
positional arguments taken from the task tuple, the outcome of evaluating
the corresponding dispatch branch (handler call included). -/
def HandlerExec := String → List PyVal → HandlerOutcome

/-- The static dispatch chain of process_task (MCP.py lines 110-190) in
source order: none when the operation name is matched by no branch, some
true when the branch binds the handler return value to entity_data, some
false when the branch discards the return value. -/
def opKind (s : String) : Option Bool :=
  if s = "set_parameter" then some false
  else if s = "draw_box" then some true
  else if s = "draw_witzenmann" then some false
  else if s = "export_stl" then some false
  else if s = "fillet_edges" then some false
  else if s = "export_step" then some false
  else if s = "draw_cylinder" then some true
  else if s = "shell_body" then some false
  else if s = "undo" then some false
  else if s = "draw_lines" then some false
  else if s = "extrude_last_sketch" then some true
  else if s = "revolve_profile" then some false
  else if s = "arc" then some false
  else if s = "draw_one_line" then some false
  else if s = "holes" then some false
  else if s = "circle" then some false
  else if s = "extrude_thin" then some true
  else if s = "select_body" then some false
  else if s = "select_sketch" then some false
  else if s = "spline" then some false
  else if s = "sweep" then some true
  else if s = "cut_extrude" then some false
  else if s = "circular_pattern" then some false
  else if s = "offsetplane" then some false
  else if s = "loft" then some true
  else if s = "ellipsis" then some false
  else if s = "draw_sphere" then some true
  else if s = "threaded" then some false
  else if s = "delete_everything" then some false
  else if s = "boolean_operation" then some false
  else if s = "draw_2d_rectangle" then some false
  else if s = "rectangular_pattern" then some false
  else if s = "draw_text" then some true
  else if s = "move_body" then some false
  else if s = "move_body_by_token" then some true
  else if s = "delete_body_by_token" then some true
  else if s = "edit_extrude_distance" then some true
  else if s = "get_body_info_by_token" then some true
  else if s = "get_feature_info_by_token" then some true
  else if s = "set_body_visibility" then some true
  else none

/-- Extraction of the correlation id (MCP.py line 105): the last tuple
element when it is a Python int, else None.  Python bools are ints
(isinstance(True, int) holds, True == 1 as a dict key), hence the bool
case. -/
def lastIntId (task : List PyVal) : Option Int :=
  match task.getLast? with
  | some (pyInt n) => some n
  | some (pyBool b) => some (if b then 1 else 0)
  | _ => none

/-- Publication guarded by the presence of a task id: set_task_response
is called only when task_id is not None (MCP.py lines 193, 198). -/
def publishOpt (store : Store) (task_id : Option Int) (success : Bool)
    (message : String) (error : PyVal) (entity_data : PyVal) : Store :=
  match task_id with
  | some id => set_task_response store id success message error entity_data
  | none => store

/-- Embedding of TaskEventHandler.process_task (MCP.py lines 100-199),
returning the updated correlation store together with the trace of
handler invocations performed (empty or a singleton).  An empty tuple
raises IndexError at task[0] with task_id = None, so nothing is
published.  A matched branch invokes its handler via the oracle and
publishes success (binding entity_data only for the branches that do) or,
on a raised exception, publishes failure with the summary message and the
traceback.  An unmatched name, or a non-string head, falls through every
elif without raising, and the code then publishes success. -/
def process_task_tr (exec : HandlerExec) (store : Store) :
    List PyVal → Store × List (String × List PyVal)
  | [] => (store, [])
  | h :: args =>
    let task_id := lastIntId (h :: args)
    let task_name := pyFormat h
    match h with
    | pyStr s =>
      match opKind s with
      | some isEntity =>
        match exec s args with
        | .ok payload =>
          (publishOpt store task_id true (task_name ++ " completed successfully")
            pyNone (if isEntity then payload else pyNone), [(s, args)])
        | .raises msg tb =>
          (publishOpt store task_id false (task_name ++ " failed: " ++ msg)
            (pyStr tb) pyNone, [(s, args)])
      | none =>
        (publishOpt store task_id true (task_name ++ " completed successfully")
          pyNone pyNone, [])
    | _ =>
      (publishOpt store task_id true (task_name ++ " completed successfully")
        pyNone pyNone, [])

/-- The correlation store after processing a single task. -/
def process_task (exec : HandlerExec) (store : Store) (task : List PyVal) :
    Store :=
  (process_task_tr exec store task).1

/-- Embedding of the drain loop of TaskEventHandler.notify (MCP.py lines
84-95): tasks are popped from the FIFO queue head first and processed one
by one; the result is the final store and the concatenated trace of
handler invocations in the order they were made. -/
def drain_tr (exec : HandlerExec) (store : Store) :
    List (List PyVal) → Store × List (String × List PyVal)
  | [] => (store, [])
  | t :: ts =>
    let (s', tr) := process_task_tr exec store t
    let (s'', trs) := drain_tr exec s' ts
    (s'', tr ++ trs)

/-- The handler invocation a single queued task gives rise to, if any:
tasks whose head is a string naming a dispatch branch invoke that branch
with the remaining tuple elements, every other task invokes nothing. -/
def taskInvocation (task : List PyVal) : Option (String × List PyVal) :=
  match task with
  | pyStr s :: args => if (opKind s).isSome then some (s, args) else none
  | _ => none

/-!
Trace semantics of the correlation store.  The only two places in MCP.py
that mutate response_dict are the assignment in set_task_response and the
pop in get_task_response (the add-in stop routine clears only the task
queue).  A history of the store is therefore a list of these two
operations.
-/

/-- One mutation of the correlation store: a producer-side publish
(set_task_response) or the single consuming pop of a successful
get_task_response. -/
inductive StoreOp where
  | publish (task_id : Int) (success : Bool) (message : String)
      (error : PyVal) (entity_data : PyVal) : StoreOp
  | consume (task_id : Int) : StoreOp

/-- Effect of one store operation. -/
def applyOp (s : Store) : StoreOp → Store
  | .publish id success message error entity_data =>
    set_task_response s id success message error entity_data
  | .consume id => storeErase s id

/-- Effect of a history of store operations, oldest first. -/
def runOps (s : Store) (ops : List StoreOp) : Store :=
  ops.foldl applyOp s

/-- Whether a store operation is the consuming pop for the given id. -/
def isConsumeOf (id : Int) : StoreOp → Prop
  | .consume id' => id' = id
  | _ => False

/-!
Front Door embedding: Handler.do_POST, Handler.queue_task_and_wait and
Handler.send_json_response (MCP.py lines 1848-2178).  A do_POST branch is
uniform: it parses operation-specific fields from the JSON body (a parse
failure raises and is caught by the enclosing except, which answers 500),
then either answers directly (validation failure, connectivity probe,
unknown path) or enqueues a task tuple and renders the awaited task
response with status 200 when its success field is truthy and 500
otherwise.
-/

/-- Python data.get(k, default) on the parsed JSON body. -/
def dataGet (data : List (String × PyVal)) (k : String) (default : PyVal) :
    PyVal :=
  (dictGet data k).getD default

/-- Python float(v) on an embedded value: ints, bools and floats convert;
None, lists and dicts raise TypeError.  String conversion is modelled for
integer literals only (decimal-fraction strings are not exercised by the
bridge and are modelled as ValueError). -/
def pyFloatFn : PyVal → Except String PyVal
  | pyFloat q => .ok (pyFloat q)
  | pyInt n => .ok (pyFloat (n : ℚ))
  | pyBool b => .ok (pyFloat (if b then 1 else 0))
  | pyStr s =>
    match s.toInt? with
    | some n => .ok (pyFloat (n : ℚ))
    | none => .error "ValueError: could not convert string to float"
  | pyNone => .error "TypeError: float() argument must be a string or a real number, not NoneType"
  | pyList _ => .error "TypeError: float() argument must be a string or a real number, not list"
  | pyDict _ => .error "TypeError: float() argument must be a string or a real number, not dict"

/-- Python int(v): ints and bools convert, floats truncate toward zero;
None, lists and dicts raise TypeError; strings are modelled for integer
literals only. -/
def pyIntFn : PyVal → Except String PyVal
  | pyInt n => .ok (pyInt n)
  | pyBool b => .ok (pyInt (if b then 1 else 0))
  | pyFloat q => .ok (pyInt (Int.tdiv q.num (q.den : Int)))
  | pyStr s =>
    match s.toInt? with
    | some n => .ok (pyInt n)
    | none => .error "ValueError: invalid literal for int()"
  | pyNone => .error "TypeError: int() argument must be a string or a number, not NoneType"
  | pyList _ => .error "TypeError: int() argument must be a string or a number, not list"
  | pyDict _ => .error "TypeError: int() argument must be a string or a number, not dict"

/-- Python str(v): total, never raises. -/
def pyStrFn (v : PyVal) : PyVal := pyStr (pyFormat v)

/-- Python bool(v): total, never raises. -/
def pyBoolFn (v : PyVal) : PyVal := pyBool (truthy v)

/-- Outcome of one do_POST branch before rendering: either a direct
response (status and body) that touches neither queue nor store, or the
decision to enqueue a task tuple and wait, with the explicit timeout
argument when the call site passes one (only the /threaded branch
does). -/
inductive RouteResult where
  | direct (status : Nat) (body : PyVal) : RouteResult
  | enqueue (tuple : List PyVal) (timeout : Option ℚ) : RouteResult

/-- The default wait timeout of Handler.queue_task_and_wait (MCP.py line
1850): timeout=10.0 seconds. -/
def defaultWaitTimeout : ℚ := 10

/-- The wait timeout a queue_task_and_wait call uses: the explicit
argument when one is passed, else the default of 10 seconds. -/
def resolveTimeout (explicit : Option ℚ) : ℚ :=
  explicit.getD defaultWaitTimeout

/-- Python str.startswith, over the character lists of the strings (the
Lean builtin is byte-position based and does not reduce definitionally,
so the character-list form is used for the embedding). -/
def startsWithPy (s pre : String) : Bool :=
  s.data.take pre.data.length == pre.data

/-- Embedding of the path-dispatch chain of Handler.do_POST (MCP.py lines
1886-2175), branch for branch in source order, including each branch's
field parsing with its Python default values.  A parse exception
propagates in the Except monad to the enclosing handler. -/
def route (path : String) (data : List (String × PyVal)) :
    Except String RouteResult :=
  if startsWithPy path "/set_parameter" then
    let name := dataGet data "name" pyNone
    let value := dataGet data "value" pyNone
    if truthy name && truthy value then
      .ok (.enqueue [pyStr "set_parameter", name, value] none)
    else
      .ok (.direct 400 (pyDict
        [("success", pyBool false), ("error", pyStr "Missing name or value")]))
  else if path = "/undo" then
    .ok (.enqueue [pyStr "undo"] none)
  else if path = "/Box" then do
    let height ← pyFloatFn (dataGet data "height" (pyInt 5))
    let width ← pyFloatFn (dataGet data "width" (pyInt 5))
    let depth ← pyFloatFn (dataGet data "depth" (pyInt 5))
    let x ← pyFloatFn (dataGet data "x" (pyInt 0))
    let y ← pyFloatFn (dataGet data "y" (pyInt 0))
    let z ← pyFloatFn (dataGet data "z" (pyInt 0))
    let plane := dataGet data "plane" pyNone
    .ok (.enqueue [pyStr "draw_box", height, width, depth, x, y, z, plane] none)
  else if path = "/Witzenmann" then do
    let scale := dataGet data "scale" (pyFloat 1)
    let z ← pyFloatFn (dataGet data "z" (pyInt 0))
    .ok (.enqueue [pyStr "draw_witzenmann", scale, z] none)
  else if path = "/Export_STL" then
    .ok (.enqueue [pyStr "export_stl", pyStrFn (dataGet data "Name" (pyStr "Test.stl"))] none)
  else if path = "/Export_STEP" then
    .ok (.enqueue [pyStr "export_step", pyStrFn (dataGet data "name" (pyStr "Test.step"))] none)
  else if path = "/fillet_edges" then do
    let radius ← pyFloatFn (dataGet data "radius" (pyFloat (3/10)))
    .ok (.enqueue [pyStr "fillet_edges", radius] none)
  else if path = "/draw_cylinder" then do
    let radius ← pyFloatFn (dataGet data "radius" pyNone)
    let height ← pyFloatFn (dataGet data "height" pyNone)
    let x ← pyFloatFn (dataGet data "x" (pyInt 0))
    let y ← pyFloatFn (dataGet data "y" (pyInt 0))
    let z ← pyFloatFn (dataGet data "z" (pyInt 0))
    let plane := dataGet data "plane" (pyStr "XY")
    .ok (.enqueue [pyStr "draw_cylinder", radius, height, x, y, z, plane] none)
  else if path = "/shell_body" then do
    let thickness ← pyFloatFn (dataGet data "thickness" (pyFloat (1/2)))
    let faceindex ← pyIntFn (dataGet data "faceindex" (pyInt 0))
    .ok (.enqueue [pyStr "shell_body", thickness, faceindex] none)
  else if path = "/draw_lines" then
    .ok (.enqueue [pyStr "draw_lines", dataGet data "points" (pyList []),
      dataGet data "plane" (pyStr "XY")] none)
  else if path = "/extrude_last_sketch" then do
    let value ← pyFloatFn (dataGet data "value" (pyFloat 1))
    let taperangle ← pyFloatFn (dataGet data "taperangle" (pyFloat 0))
    .ok (.enqueue [pyStr "extrude_last_sketch", value, taperangle] none)
  else if path = "/revolve" then do
    let angle ← pyFloatFn (dataGet data "angle" (pyInt 360))
    .ok (.enqueue [pyStr "revolve_profile", angle] none)
  else if path = "/arc" then do
    let point1 := dataGet data "point1" (pyList [pyInt 0, pyInt 0])
    let point2 := dataGet data "point2" (pyList [pyInt 1, pyInt 1])
    let point3 := dataGet data "point3" (pyList [pyInt 2, pyInt 0])
    let connect := pyBoolFn (dataGet data "connect" (pyBool false))
    let plane := dataGet data "plane" (pyStr "XY")
    .ok (.enqueue [pyStr "arc", point1, point2, point3, connect, plane] none)
  else if path = "/draw_one_line" then do
    let x1 ← pyFloatFn (dataGet data "x1" (pyInt 0))
    let y1 ← pyFloatFn (dataGet data "y1" (pyInt 0))
    let z1 ← pyFloatFn (dataGet data "z1" (pyInt 0))
    let x2 ← pyFloatFn (dataGet data "x2" (pyInt 1))
    let y2 ← pyFloatFn (dataGet data "y2" (pyInt 1))
    let z2 ← pyFloatFn (dataGet data "z2" (pyInt 0))
    let plane := dataGet data "plane" (pyStr "XY")
    .ok (.enqueue [pyStr "draw_one_line", x1, y1, z1, x2, y2, z2, plane] none)
  else if path = "/holes" then do
    let points := dataGet data "points" (pyList [pyList [pyInt 0, pyInt 0]])
    let width ← pyFloatFn (dataGet data "width" (pyFloat 1))
    let faceindex ← pyIntFn (dataGet data "faceindex" (pyInt 0))
    let distance0 := dataGet data "depth" pyNone
    let distance ← match distance0 with
      | pyNone => pure pyNone
      | v => pyFloatFn v
    .ok (.enqueue [pyStr "holes", points, width, distance, faceindex] none)
  else if path = "/create_circle" then do
    let radius ← pyFloatFn (dataGet data "radius" (pyFloat 1))
    let x ← pyFloatFn (dataGet data "x" (pyInt 0))
    let y ← pyFloatFn (dataGet data "y" (pyInt 0))
    let z ← pyFloatFn (dataGet data "z" (pyInt 0))
    let plane := dataGet data "plane" (pyStr "XY")
    .ok (.enqueue [pyStr "circle", radius, x, y, z, plane] none)
  else if path = "/extrude_thin" then do
    let thickness ← pyFloatFn (dataGet data "thickness" (pyFloat (1/2)))
    let distance ← pyFloatFn (dataGet data "distance" (pyFloat 1))
    .ok (.enqueue [pyStr "extrude_thin", thickness, distance] none)
  else if path = "/select_body" then
    .ok (.enqueue [pyStr "select_body", pyStrFn (dataGet data "name" (pyStr ""))] none)
  else if path = "/select_sketch" then
    .ok (.enqueue [pyStr "select_sketch", pyStrFn (dataGet data "name" (pyStr ""))] none)
  else if path = "/sweep" then
    .ok (.enqueue [pyStr "sweep"] none)
  else if path = "/spline" then
    .ok (.enqueue [pyStr "spline", dataGet data "points" (pyList []),
      dataGet data "plane" (pyStr "XY")] none)
  else if path = "/cut_extrude" then do
    let depth ← pyFloatFn (dataGet data "depth" (pyFloat 1))
    .ok (.enqueue [pyStr "cut_extrude", depth] none)
  else if path = "/circular_pattern" then do
    let quantity ← pyFloatFn (dataGet data "quantity" pyNone)
    let axis := pyStrFn (dataGet data "axis" (pyStr "X"))
    let plane := pyStrFn (dataGet data "plane" (pyStr "XY"))
    .ok (.enqueue [pyStr "circular_pattern", quantity, axis, plane] none)
  else if path = "/offsetplane" then do
    let offset ← pyFloatFn (dataGet data "offset" (pyFloat 0))
    let plane := pyStrFn (dataGet data "plane" (pyStr "XY"))
    .ok (.enqueue [pyStr "offsetplane", offset, plane] none)
  else if path = "/loft" then do
    let sketchcount ← pyIntFn (dataGet data "sketchcount" (pyInt 2))
    .ok (.enqueue [pyStr "loft", sketchcount] none)
  else if path = "/ellipsis" then do
    let xc ← pyFloatFn (dataGet data "x_center" (pyInt 0))
    let yc ← pyFloatFn (dataGet data "y_center" (pyInt 0))
    let zc ← pyFloatFn (dataGet data "z_center" (pyInt 0))
    let xm ← pyFloatFn (dataGet data "x_major" (pyInt 10))
    let ym ← pyFloatFn (dataGet data "y_major" (pyInt 0))
    let zm ← pyFloatFn (dataGet data "z_major" (pyInt 0))
    let xt ← pyFloatFn (dataGet data "x_through" (pyInt 5))
    let yt ← pyFloatFn (dataGet data "y_through" (pyInt 4))
    let zt ← pyFloatFn (dataGet data "z_through" (pyInt 0))
    let plane := pyStrFn (dataGet data "plane" (pyStr "XY"))
    .ok (.enqueue [pyStr "ellipsis", xc, yc, zc, xm, ym, zm, xt, yt, zt, plane] none)
  else if path = "/sphere" then do
    let radius ← pyFloatFn (dataGet data "radius" (pyFloat 5))
    let x ← pyFloatFn (dataGet data "x" (pyInt 0))
    let y ← pyFloatFn (dataGet data "y" (pyInt 0))
    let z ← pyFloatFn (dataGet data "z" (pyInt 0))
    .ok (.enqueue [pyStr "draw_sphere", radius, x, y, z] none)
  else if path = "/threaded" then do
    let inside := pyBoolFn (dataGet data "inside" (pyBool true))
    let allsizes ← pyIntFn (dataGet data "allsizes" (pyInt 30))
    .ok (.enqueue [pyStr "threaded", inside, allsizes] (some 30))
  else if path = "/delete_everything" then
    .ok (.enqueue [pyStr "delete_everything"] none)
  else if path = "/boolean_operation" then
    .ok (.enqueue [pyStr "boolean_operation", dataGet data "operation" (pyStr "join")] none)
  else if path = "/test_connection" then
    .ok (.direct 200 (pyDict
      [("success", pyBool true), ("message", pyStr "Connection successful")]))
  else if path = "/draw_2d_rectangle" then do
    let x1 ← pyFloatFn (dataGet data "x_1" (pyInt 0))
    let y1 ← pyFloatFn (dataGet data "y_1" (pyInt 0))
    let z1 ← pyFloatFn (dataGet data "z_1" (pyInt 0))
    let x2 ← pyFloatFn (dataGet data "x_2" (pyInt 1))
    let y2 ← pyFloatFn (dataGet data "y_2" (pyInt 1))
    let z2 ← pyFloatFn (dataGet data "z_2" (pyInt 0))
    let plane := dataGet data "plane" (pyStr "XY")
    .ok (.enqueue [pyStr "draw_2d_rectangle", x1, y1, z1, x2, y2, z2, plane] none)
  else if path = "/rectangular_pattern" then do
    let q1 ← pyFloatFn (dataGet data "quantity_one" (pyInt 2))
    let d1 ← pyFloatFn (dataGet data "distance_one" (pyInt 5))
    let a1 := pyStrFn (dataGet data "axis_one" (pyStr "X"))
    let q2 ← pyFloatFn (dataGet data "quantity_two" (pyInt 2))
    let d2 ← pyFloatFn (dataGet data "distance_two" (pyInt 5))
    let a2 := pyStrFn (dataGet data "axis_two" (pyStr "Y"))
    let plane := pyStrFn (dataGet data "plane" (pyStr "XY"))
    .ok (.enqueue [pyStr "rectangular_pattern", a1, a2, q1, q2, d1, d2, plane] none)
  else if path = "/draw_text" then do
    let text := pyStrFn (dataGet data "text" (pyStr "Hello"))
    let x1 ← pyFloatFn (dataGet data "x_1" (pyInt 0))
    let y1 ← pyFloatFn (dataGet data "y_1" (pyInt 0))
    let z1 ← pyFloatFn (dataGet data "z_1" (pyInt 0))
    let x2 ← pyFloatFn (dataGet data "x_2" (pyInt 10))
    let y2 ← pyFloatFn (dataGet data "y_2" (pyInt 4))
    let z2 ← pyFloatFn (dataGet data "z_2" (pyInt 0))
    let extrusion ← pyFloatFn (dataGet data "extrusion_value" (pyFloat 1))
    let plane := pyStrFn (dataGet data "plane" (pyStr "XY"))
    let thickness ← pyFloatFn (dataGet data "thickness" (pyFloat (1/2)))
    .ok (.enqueue [pyStr "draw_text", text, thickness, x1, y1, z1, x2, y2, z2, extrusion, plane] none)
  else if path = "/move_body" then do
    let x ← pyFloatFn (dataGet data "x" (pyInt 0))
    let y ← pyFloatFn (dataGet data "y" (pyInt 0))
    let z ← pyFloatFn (dataGet data "z" (pyInt 0))
    .ok (.enqueue [pyStr "move_body", x, y, z] none)
  else if path = "/move_body_by_token" then do
    let token := pyStrFn (dataGet data "body_token" pyNone)
    let x ← pyFloatFn (dataGet data "x" (pyInt 0))
    let y ← pyFloatFn (dataGet data "y" (pyInt 0))
    let z ← pyFloatFn (dataGet data "z" (pyInt 0))
    .ok (.enqueue [pyStr "move_body_by_token", token, x, y, z] none)
  else if path = "/delete_body_by_token" then
    .ok (.enqueue [pyStr "delete_body_by_token", pyStrFn (dataGet data "body_token" pyNone)] none)
  else if path = "/edit_extrude_distance" then do
    let token := pyStrFn (dataGet data "feature_token" pyNone)
    let nd ← pyFloatFn (dataGet data "new_distance" pyNone)
    .ok (.enqueue [pyStr "edit_extrude_distance", token, nd] none)
  else if path = "/get_body_info" then
    .ok (.enqueue [pyStr "get_body_info_by_token", pyStrFn (dataGet data "body_token" pyNone)] none)
  else if path = "/get_feature_info" then
    .ok (.enqueue [pyStr "get_feature_info_by_token", pyStrFn (dataGet data "feature_token" pyNone)] none)
  else if path = "/set_body_visibility" then do
    let token := pyStrFn (dataGet data "body_token" pyNone)
    let visible := pyBoolFn (dataGet data "is_visible" (pyBool true))
    .ok (.enqueue [pyStr "set_body_visibility", token, visible] none)
  else
    .ok (.direct 404 (pyDict [("success", pyBool false), ("error", pyStr "Not Found")]))

/-- Model of traceback.format_exc() for an exception caught in do_POST:
an opaque diagnostic string derived from the exception message. -/
def tracebackOf (e : String) : String :=
  "Traceback (most recent call last): " ++ e

/-- Rendered outcome of one do_POST call: the HTTP status and JSON body
sent by send_json_response (MCP.py lines 1861-1866), and the task tuple
and wait timeout when the branch called queue_task_and_wait (none when no
task was enqueued). -/
structure PostResponse where
  status : Nat
  body : PyVal
  enqueued : Option (List PyVal × ℚ)

/-- Embedding of Handler.do_POST (MCP.py lines 1880-2178) given the
awaited task response (the value queue_task_and_wait returns for the
branch's task, produced by get_task_response).  A branch that enqueues
renders that response with status 200 when its success field is truthy
and 500 otherwise (the uniform send_json_response call every such branch
makes); a raised parse exception is caught by the enclosing except and
answered with status 500 and an error body, without enqueueing. -/
def do_POST (path : String) (data : List (String × PyVal)) (awaited : PyVal) :
    PostResponse :=
  match route path data with
  | .error e =>
    { status := 500,
      body := pyDict [("success", pyBool false), ("error", pyStr e),
        ("traceback", pyStr (tracebackOf e))],
      enqueued := none }
  | .ok (.direct status body) =>
    { status := status, body := body, enqueued := none }
  | .ok (.enqueue tuple explicit) =>
    { status := if truthy ((pyGet awaited "success").getD pyNone) then 200 else 500,
      body := awaited,
      enqueued := some (tuple, resolveTimeout explicit) }

/-- Embedding of the enqueue half of Handler.queue_task_and_wait (MCP.py
lines 1850-1855): allocate a fresh id with generate_task_id, append it to
the task tuple, and put the extended tuple on the task queue. -/
def queue_task_enqueue (counter : Int) (q : List (List PyVal))
    (tuple : List PyVal) : Int × List (List PyVal) × Int :=
  let (counter', task_id) := generate_task_id counter
  (counter', q ++ [tuple ++ [pyInt task_id]], task_id)

/-!
Lemmas about the correlation store.
-/

/-- The success field (or any field) of the response stored under an id,
as the Front Door would read it. -/
def responseField (store : Store) (task_id : Int) (k : String) : Option PyVal :=
  (storeGet store task_id).bind (fun r => pyGet r k)

theorem storeGet_storeSet_self (s : Store) (k : Int) (v : PyVal) :
    storeGet (storeSet s k v) k = some v := by
  induction s with
  | nil => simp [storeSet, storeGet]
  | cons hd tl ih =>
    obtain ⟨k', v'⟩ := hd
    by_cases h : k' = k
    · simp [storeSet, storeGet, h]
    · simp [storeSet, storeGet, h, ih]

theorem storeGet_storeSet_ne (s : Store) (k k' : Int) (v : PyVal)
    (h : k' ≠ k) : storeGet (storeSet s k v) k' = storeGet s k' := by
  have h' : k ≠ k' := Ne.symm h
  induction s with
  | nil => simp [storeSet, storeGet, h']
  | cons hd tl ih =>
    obtain ⟨k₀, v₀⟩ := hd
    by_cases h0 : k₀ = k
    · subst h0
      simp [storeSet, storeGet, h']
    · simp only [storeSet, if_neg h0, storeGet]
      by_cases h1 : k₀ = k'
      · simp [h1]
      · simp [h1, ih]

theorem storeGet_storeErase_ne (s : Store) (k k' : Int) (h : k' ≠ k) :
    storeGet (storeErase s k) k' = storeGet s k' := by
  have h' : k ≠ k' := Ne.symm h
  induction s with
  | nil => simp [storeErase, storeGet]
  | cons hd tl ih =>
    obtain ⟨k₀, v₀⟩ := hd
    by_cases h0 : k₀ = k
    · subst h0
      simp [storeErase, storeGet, h']
    · simp only [storeErase, if_neg h0, storeGet]
      by_cases h1 : k₀ = k'
      · simp [h1]
      · simp [h1, ih]

theorem storeGet_eq_none_of_not_mem (s : Store) (k : Int)
    (h : k ∉ s.map Prod.fst) : storeGet s k = none := by
  induction s with
  | nil => rfl
  | cons hd tl ih =>
    obtain ⟨k₀, v₀⟩ := hd
    simp only [List.map_cons, List.mem_cons] at h
    push_neg at h
    have h0 : k₀ ≠ k := Ne.symm h.1
    simp [storeGet, h0, ih h.2]

theorem storeGet_storeErase_self (s : Store) (k : Int)
    (h : (s.map Prod.fst).Nodup) : storeGet (storeErase s k) k = none := by
  induction s with
  | nil => rfl
  | cons hd tl ih =>
    obtain ⟨k₀, v₀⟩ := hd
    simp only [List.map_cons, List.nodup_cons] at h
    by_cases h0 : k₀ = k
    · subst h0
      simp only [storeErase, if_pos rfl]
      exact storeGet_eq_none_of_not_mem tl k₀ h.1
    · simp [storeErase, h0, storeGet, ih h.2]

/-- A poll on a store holding no completed entry for the id finds
nothing; in particular a store with no entry at all for the id. -/
theorem pollCheck_eq_none_of_get_none (s : Store) (k : Int)
    (h : storeGet s k = none) : pollCheck s k = none := by
  simp [pollCheck, h]

/-- Helper: when no poll ever finds a completed entry for the id, the
call returns the synthesized timeout response and performs no store
mutation. -/
theorem get_task_response_timeout_of_never (stores : List Store) (id : Int)
    (h : ∀ s ∈ stores, pollCheck s id = none) :
    get_task_response stores id = (timeoutResponse, none) := by
  induction stores with
  | nil => rfl
  | cons s rest ih =>
    have hs := h s (List.mem_cons_self s rest)
    simp only [get_task_response, hs]
    exact ih (fun u hu => h u (List.mem_cons_of_mem s hu))

/-- Helper: an entry stays present across any store operation that is not
the consuming pop for its id (a later publish for the same id overwrites
but does not remove). -/
theorem isSome_applyOp (s : Store) (op : StoreOp) (id : Int)
    (h : (storeGet s id).isSome) (hop : ¬ isConsumeOf id op) :
    (storeGet (applyOp s op) id).isSome := by
  cases op with
  | publish id' success message error entity =>
    by_cases he : id' = id
    · subst he
      simp [applyOp, set_task_response, storeGet_storeSet_self]
    · have : id ≠ id' := Ne.symm he
      simp only [applyOp, set_task_response]
      rw [storeGet_storeSet_ne _ _ _ _ this]
      exact h
  | consume id' =>
    have he : id ≠ id' := by
      intro hh
      exact hop (by simp [isConsumeOf, hh])
    simp only [applyOp]
    rw [storeGet_storeErase_ne _ _ _ he]
    exact h

/-- Helper: an entry stays present across a whole history containing no
consuming pop for its id. -/
theorem isSome_runOps (ops : List StoreOp) (s : Store) (id : Int)
    (h : (storeGet s id).isSome) (hops : ∀ op ∈ ops, ¬ isConsumeOf id op) :
    (storeGet (runOps s ops) id).isSome := by
  induction ops generalizing s with
  | nil => exact h
  | cons op rest ih =>
    simp only [runOps, List.foldl_cons]
    exact ih (applyOp s op)
      (isSome_applyOp s op id h (hops op (List.mem_cons_self op rest)))
      (fun o ho => hops o (List.mem_cons_of_mem op ho))

/-- C3: an await_result call whose id is never published returns the
synthesized failure response (success false, timeout message) and leaves
the correlation store untouched; a publish for that id arriving after the
timeout creates an entry that remains in the store across any later
history that contains no consuming read for that id, which nothing will
ever issue. -/
theorem timeout_returns_failure_and_late_publish_orphans
    (stores : List Store) (id : Int)
    (hnever : ∀ s ∈ stores, pollCheck s id = none)
    (s₀ : Store) (success : Bool) (message : String) (error entity : PyVal)
    (post : List StoreOp)
    (hpost : ∀ op ∈ post, ¬ isConsumeOf id op) :
    get_task_response stores id = (timeoutResponse, none) ∧
    pyGet timeoutResponse "success" = some (pyBool false) ∧
    pyGet timeoutResponse "message" = some (pyStr "Task timeout") ∧
    (storeGet (runOps s₀
      (StoreOp.publish id success message error entity :: post)) id).isSome := by
  refine ⟨get_task_response_timeout_of_never stores id hnever, rfl, rfl, ?_⟩
  simp only [runOps, List.foldl_cons]
  exact isSome_runOps post _ id
    (by simp [applyOp, set_task_response, storeGet_storeSet_self]) hpost

/-- Witness for C3 at a concrete never-published id. -/
theorem timeout_returns_failure_and_late_publish_orphans_witness :
    get_task_response [[], [((3 : Int), pyDict [])]] 7 = (timeoutResponse, none) ∧
    pyGet timeoutResponse "success" = some (pyBool false) ∧
    pyGet timeoutResponse "message" = some (pyStr "Task timeout") ∧
    (storeGet (runOps []
      (StoreOp.publish 7 true "draw_box completed successfully" pyNone pyNone ::
        [StoreOp.consume 5])) 7).isSome := by
  exact timeout_returns_failure_and_late_publish_orphans
    [[], [((3 : Int), pyDict [])]] 7
    (by
      intro s hs
      simp only [List.mem_cons, List.not_mem_nil, or_false] at hs
      rcases hs with rfl | rfl
      · rfl
      · rfl)
    [] true "draw_box completed successfully" pyNone pyNone
    [StoreOp.consume 5]
    (by
      intro op hop
      simp only [List.mem_cons, List.not_mem_nil, or_false] at hop
      subst hop
      simp only [isConsumeOf]
      omega)

/-- C4: when the store holds a completed response for the id, the first
poll of await_result pops and returns it; the popped store has no entry
for the id any more, so a second await_result for the same id, polling
any number of times with no new publish, returns the synthesized timeout
failure.  The Nodup hypothesis is the Python dict invariant (a dict never
holds two entries for one key). -/
theorem consume_once
    (s : Store) (rest : List Store) (id : Int) (r : PyVal) (k : Nat)
    (hfound : pollCheck s id = some r)
    (hnodup : (s.map Prod.fst).Nodup) :
    get_task_response (s :: rest) id = (r, some (storeErase s id)) ∧
    storeGet (storeErase s id) id = none ∧
    get_task_response (List.replicate k (storeErase s id)) id =
      (timeoutResponse, none) := by
  have herase : storeGet (storeErase s id) id = none :=
    storeGet_storeErase_self s id hnodup
  refine ⟨?_, herase, ?_⟩
  · simp only [get_task_response, hfound]
  · apply get_task_response_timeout_of_never
    intro u hu
    rw [List.eq_of_mem_replicate hu]
    exact pollCheck_eq_none_of_get_none _ _ herase

/-- Witness for C4 at a concrete published response. -/
theorem consume_once_witness :
    get_task_response [set_task_response [] 4 true "undo completed successfully" pyNone pyNone] 4 =
      (pyDict [("success", pyBool true),
        ("message", pyStr "undo completed successfully"),
        ("error", pyNone), ("completed", pyBool true),
        ("entity_data", pyNone)],
       some (storeErase (set_task_response [] 4 true "undo completed successfully" pyNone pyNone) 4)) ∧
    storeGet (storeErase (set_task_response [] 4 true "undo completed successfully" pyNone pyNone) 4) 4 = none ∧
    get_task_response
      (List.replicate 2 (storeErase (set_task_response [] 4 true "undo completed successfully" pyNone pyNone) 4)) 4 =
      (timeoutResponse, none) := by
  exact consume_once
    (set_task_response [] 4 true "undo completed successfully" pyNone pyNone)
    [] 4
    (pyDict [("success", pyBool true),
      ("message", pyStr "undo completed successfully"),
      ("error", pyNone), ("completed", pyBool true),
      ("entity_data", pyNone)])
    2 rfl (by simp [set_task_response, storeSet])

/-- Helper: every id produced by a run of sequential generate_task_id
calls exceeds the counter value the run started from. -/
theorem lt_of_mem_seqIds (n : Nat) (c x : Int) (h : x ∈ seqIds c n) :
    c < x := by
  induction n generalizing c with
  | zero => simp [seqIds] at h
  | succ m ih =>
    simp only [seqIds, generate_task_id, List.mem_cons] at h
    rcases h with rfl | h
    · exact lt_add_one c
    · exact lt_trans (lt_add_one c) (ih (c + 1) h)

/-- C2 (amended): the ids returned by successive sequential
generate_task_id calls are strictly increasing and pairwise distinct.
The concurrent half of the claim fails: see the counterexample run. -/
theorem sequential_task_ids_increasing_and_distinct (c : Int) (n : Nat) :
    List.Pairwise (· < ·) (seqIds c n) ∧ (seqIds c n).Nodup := by
  have hp : List.Pairwise (· < ·) (seqIds c n) := by
    induction n generalizing c with
    | zero => simp [seqIds]
    | succ m ih =>
      simp only [seqIds, generate_task_id, List.pairwise_cons]
      exact ⟨fun x hx => lt_of_mem_seqIds m (c + 1) x hx, ih (c + 1)⟩
  exact ⟨hp, hp.imp ne_of_lt⟩

/-- C2 counterexample: with the unlocked read-increment-write of
generate_task_id split at its interleaving point, the schedule in which
both Front Door threads load the counter before either stores it back
makes both calls return the same id 1 — the identifiers are not pairwise
distinct under concurrency. -/
theorem concurrent_task_ids_can_collide :
    (raceRun 0 [false, true, false, true]).ret1 = some 1 ∧
    (raceRun 0 [false, true, false, true]).ret2 = some 1 ∧
    (raceRun 0 [false, true, false, true]).ret1 =
      (raceRun 0 [false, true, false, true]).ret2 := by
  decide

/-- Helper: the correlation id extracted from a tuple ending in an
appended integer id is exactly that id. -/
theorem lastIntId_concat (l : List PyVal) (n : Int) :
    lastIntId (l ++ [pyInt n]) = some n := by
  simp only [lastIntId, List.getLast?_concat]

/-- A trivial handler oracle: every invocation returns None. -/
def exec0 : HandlerExec := fun _ _ => HandlerOutcome.ok pyNone

/-- C1 (amended): a dequeued task whose operation name is matched by no
branch of the dispatch chain falls through every elif without raising,
and the code then publishes a Task Result with success = true and the
message that the operation completed successfully; the remaining queued
tasks of the drain are still processed normally. -/
theorem unknown_operation_publishes_success
    (exec : HandlerExec) (store : Store) (n : String) (args : List PyVal)
    (id : Int) (rest : List (List PyVal))
    (hunknown : opKind n = none)
    (hid : (pyStr n :: args).getLast? = some (pyInt id)) :
    process_task exec store (pyStr n :: args) =
      set_task_response store id true (n ++ " completed successfully")
        pyNone pyNone ∧
    responseField (process_task exec store (pyStr n :: args)) id "success" =
      some (pyBool true) ∧
    responseField (process_task exec store (pyStr n :: args)) id "message" =
      some (pyStr (n ++ " completed successfully")) ∧
    drain_tr exec store ((pyStr n :: args) :: rest) =
      drain_tr exec (process_task exec store (pyStr n :: args)) rest := by
  have hl : lastIntId (pyStr n :: args) = some id := by
    simp only [lastIntId, hid]
  have hpt : process_task_tr exec store (pyStr n :: args) =
      (set_task_response store id true (n ++ " completed successfully")
        pyNone pyNone, []) := by
    simp only [process_task_tr, hl, hunknown, pyFormat, publishOpt]
  have hp : process_task exec store (pyStr n :: args) =
      set_task_response store id true (n ++ " completed successfully")
        pyNone pyNone := by
    simp only [process_task, hpt]
  refine ⟨hp, ?_, ?_, ?_⟩
  · simp [responseField, hp, set_task_response, mkResponse,
      storeGet_storeSet_self, pyGet, dictGet]
  · simp [responseField, hp, set_task_response, mkResponse,
      storeGet_storeSet_self, pyGet, dictGet]
  · simp only [drain_tr, hpt, hp, List.nil_append]

/-- C1 counterexample: the scenario task ("unknown_op", 3) is published
with success = true and the message "unknown_op completed successfully",
not with success = false as claimed — the dispatch chain has no
unknown-operation failure branch. -/
theorem unknown_operation_counterexample :
    responseField (process_task exec0 [] [pyStr "unknown_op", pyInt 3]) 3
      "success" = some (pyBool true) ∧
    responseField (process_task exec0 [] [pyStr "unknown_op", pyInt 3]) 3
      "success" ≠ some (pyBool false) ∧
    responseField (process_task exec0 [] [pyStr "unknown_op", pyInt 3]) 3
      "message" = some (pyStr "unknown_op completed successfully") := by
  have e : responseField (process_task exec0 [] [pyStr "unknown_op", pyInt 3]) 3
      "success" = some (pyBool true) := rfl
  refine ⟨e, ?_, rfl⟩
  rw [e]
  simp

/-- Witness for C1 (amended) at the scenario task ("unknown_op", 3). -/
theorem unknown_operation_publishes_success_witness :
    process_task exec0 [] [pyStr "unknown_op", pyInt 3] =
      set_task_response [] 3 true "unknown_op completed successfully"
        pyNone pyNone ∧
    responseField (process_task exec0 [] [pyStr "unknown_op", pyInt 3]) 3
      "success" = some (pyBool true) ∧
    responseField (process_task exec0 [] [pyStr "unknown_op", pyInt 3]) 3
      "message" = some (pyStr "unknown_op completed successfully") ∧
    drain_tr exec0 [] ([pyStr "unknown_op", pyInt 3] :: [[pyStr "undo", pyInt 4]]) =
      drain_tr exec0 (process_task exec0 [] [pyStr "unknown_op", pyInt 3])
        [[pyStr "undo", pyInt 4]] := by
  exact unknown_operation_publishes_success exec0 [] "unknown_op" [pyInt 3] 3
    [[pyStr "undo", pyInt 4]] rfl rfl

/-- A handler oracle whose every invocation raises, modelling a geometry
call that fails inside the Fusion API. -/
def execRaisesBoom : HandlerExec :=
  fun _ _ => HandlerOutcome.raises "boom" "Traceback (most recent call last): boom"

/-- C6: when the matched handler of a dequeued task with an integer id
raises, process_task publishes under that id a Task Result with
success = false, the summary message, and the full traceback as error
detail; the exception is absorbed inside process_task and the drain goes
on to process the remaining tasks. -/
theorem handler_exception_reported_and_isolated
    (exec : HandlerExec) (store : Store) (n : String) (args : List PyVal)
    (id : Int) (isEntity : Bool) (msg tb : String) (rest : List (List PyVal))
    (hknown : opKind n = some isEntity)
    (hid : (pyStr n :: args).getLast? = some (pyInt id))
    (hraises : exec n args = HandlerOutcome.raises msg tb) :
    process_task exec store (pyStr n :: args) =
      set_task_response store id false (n ++ " failed: " ++ msg)
        (pyStr tb) pyNone ∧
    responseField (process_task exec store (pyStr n :: args)) id "success" =
      some (pyBool false) ∧
    responseField (process_task exec store (pyStr n :: args)) id "error" =
      some (pyStr tb) ∧
    responseField (process_task exec store (pyStr n :: args)) id "message" =
      some (pyStr (n ++ " failed: " ++ msg)) ∧
    drain_tr exec store ((pyStr n :: args) :: rest) =
      ((drain_tr exec (process_task exec store (pyStr n :: args)) rest).1,
       (n, args) ::
         (drain_tr exec (process_task exec store (pyStr n :: args)) rest).2) := by
  have hl : lastIntId (pyStr n :: args) = some id := by
    simp only [lastIntId, hid]
  have hpt : process_task_tr exec store (pyStr n :: args) =
      (set_task_response store id false (n ++ " failed: " ++ msg)
        (pyStr tb) pyNone, [(n, args)]) := by
    simp only [process_task_tr, hl, hknown, hraises, pyFormat, publishOpt]
  have hp : process_task exec store (pyStr n :: args) =
      set_task_response store id false (n ++ " failed: " ++ msg)
        (pyStr tb) pyNone := by
    simp only [process_task, hpt]
  refine ⟨hp, ?_, ?_, ?_, ?_⟩
  · simp [responseField, hp, set_task_response, mkResponse,
      storeGet_storeSet_self, pyGet, dictGet]
  · simp [responseField, hp, set_task_response, mkResponse,
      storeGet_storeSet_self, pyGet, dictGet]
  · simp [responseField, hp, set_task_response, mkResponse,
      storeGet_storeSet_self, pyGet, dictGet]
  · simp only [drain_tr, hpt, hp, List.cons_append, List.nil_append]

/-- Witness for C6: a raising handler on task ("undo", 1), with one more
task behind it in the drain. -/
theorem handler_exception_reported_and_isolated_witness :
    process_task execRaisesBoom [] [pyStr "undo", pyInt 1] =
      set_task_response [] 1 false "undo failed: boom"
        (pyStr "Traceback (most recent call last): boom") pyNone ∧
    responseField (process_task execRaisesBoom [] [pyStr "undo", pyInt 1]) 1
      "success" = some (pyBool false) ∧
    responseField (process_task execRaisesBoom [] [pyStr "undo", pyInt 1]) 1
      "error" = some (pyStr "Traceback (most recent call last): boom") ∧
    responseField (process_task execRaisesBoom [] [pyStr "undo", pyInt 1]) 1
      "message" = some (pyStr "undo failed: boom") ∧
    drain_tr execRaisesBoom [] ([pyStr "undo", pyInt 1] :: [[pyStr "sweep", pyInt 2]]) =
      ((drain_tr execRaisesBoom
          (process_task execRaisesBoom [] [pyStr "undo", pyInt 1])
          [[pyStr "sweep", pyInt 2]]).1,
       ("undo", [pyInt 1]) ::
         (drain_tr execRaisesBoom
           (process_task execRaisesBoom [] [pyStr "undo", pyInt 1])
           [[pyStr "sweep", pyInt 2]]).2) := by
  exact handler_exception_reported_and_isolated execRaisesBoom [] "undo"
    [pyInt 1] 1 false "boom" "Traceback (most recent call last): boom"
    [[pyStr "sweep", pyInt 2]] rfl rfl rfl

/-- Helper: the handler-invocation trace of a single processed task is
exactly its taskInvocation, when it has one. -/
theorem process_task_tr_trace (exec : HandlerExec) (store : Store)
    (task : List PyVal) :
    (process_task_tr exec store task).2 =
      (taskInvocation task).elim [] (fun p => [p]) := by
  match task with
  | [] => rfl
  | pyStr s :: args =>
    cases hk : opKind s with
    | some isEntity =>
      cases hx : exec s args with
      | ok payload =>
        simp [process_task_tr, taskInvocation, hk, hx]
      | raises msg tb =>
        simp [process_task_tr, taskInvocation, hk, hx]
    | none =>
      simp [process_task_tr, taskInvocation, hk]
  | pyNone :: args => rfl
  | pyBool b :: args => rfl
  | pyInt n :: args => rfl
  | pyFloat q :: args => rfl
  | pyList xs :: args => rfl
  | pyDict fs :: args => rfl

/-- C8: the Dispatcher's drain invokes handlers strictly in enqueue
order: the sequence of handler invocations a drain performs is exactly
the enqueue-ordered sequence of the invocations the queued tasks call
for, with no reordering. -/
theorem drain_invokes_handlers_in_fifo_order
    (exec : HandlerExec) (store : Store) (tasks : List (List PyVal)) :
    (drain_tr exec store tasks).2 = tasks.filterMap taskInvocation := by
  induction tasks generalizing store with
  | nil => rfl
  | cons t ts ih =>
    have htr := process_task_tr_trace exec store t
    simp only [drain_tr]
    cases hpt : process_task_tr exec store t with
    | mk s' tr =>
      rw [hpt] at htr
      simp only at htr
      cases hd : drain_tr exec s' ts with
      | mk s'' trs =>
        have hih := ih s'
        rw [hd] at hih
        simp only at hih
        simp only [List.filterMap_cons]
        cases hi : taskInvocation t with
        | none =>
          rw [hi] at htr
          simp only [Option.elim] at htr
          simp [htr, hih]
        | some p =>
          rw [hi] at htr
          simp only [Option.elim] at htr
          simp [htr, hih]

/-- C10: queue_task_and_wait appends the freshly allocated integer id as
the last element of the enqueued task tuple; process_task extracts
exactly that id, and its processing performs exactly one store update,
a single publish of a completed response under that id — through the
success branch or through the exception branch. -/
theorem enqueued_task_receives_exactly_one_publish
    (counter : Int) (q : List (List PyVal)) (tuple : List PyVal)
    (exec : HandlerExec) (store : Store) :
    (queue_task_enqueue counter q tuple).2.1 =
      q ++ [tuple ++ [pyInt (counter + 1)]] ∧
    (queue_task_enqueue counter q tuple).2.2 = counter + 1 ∧
    lastIntId (tuple ++ [pyInt (counter + 1)]) = some (counter + 1) ∧
    ∃ r, process_task exec store (tuple ++ [pyInt (counter + 1)]) =
        storeSet store (counter + 1) r ∧
      pyGet r "completed" = some (pyBool true) := by
  refine ⟨rfl, rfl, lastIntId_concat tuple (counter + 1), ?_⟩
  cases tuple with
  | nil =>
    exact ⟨mkResponse true (pyFormat (pyInt (counter + 1)) ++ " completed successfully")
      pyNone pyNone, rfl, rfl⟩
  | cons h rest =>
    have hl : lastIntId (h :: (rest ++ [pyInt (counter + 1)])) =
        some (counter + 1) := lastIntId_concat (h :: rest) (counter + 1)
    cases h with
    | pyStr s =>
      cases hk : opKind s with
      | some isEntity =>
        cases hx : exec s (rest ++ [pyInt (counter + 1)]) with
        | ok payload =>
          refine ⟨mkResponse true (s ++ " completed successfully") pyNone
            (if isEntity then payload else pyNone), ?_, rfl⟩
          simp only [List.cons_append, process_task, process_task_tr, hl, hk,
            hx, pyFormat, publishOpt, set_task_response]
        | raises msg tb =>
          refine ⟨mkResponse false (s ++ " failed: " ++ msg) (pyStr tb)
            pyNone, ?_, rfl⟩
          simp only [List.cons_append, process_task, process_task_tr, hl, hk,
            hx, pyFormat, publishOpt, set_task_response]
      | none =>
        refine ⟨mkResponse true (s ++ " completed successfully") pyNone
          pyNone, ?_, rfl⟩
        simp only [List.cons_append, process_task, process_task_tr, hl, hk,
          pyFormat, publishOpt, set_task_response]
    | pyNone =>
      exact ⟨mkResponse true (pyFormat pyNone ++ " completed successfully")
        pyNone pyNone, by
          simp only [List.cons_append, process_task, process_task_tr, hl,
            publishOpt, set_task_response], rfl⟩
    | pyBool b =>
      exact ⟨mkResponse true (pyFormat (pyBool b) ++ " completed successfully")
        pyNone pyNone, by
          simp only [List.cons_append, process_task, process_task_tr, hl,
            publishOpt, set_task_response], rfl⟩
    | pyInt m =>
      exact ⟨mkResponse true (pyFormat (pyInt m) ++ " completed successfully")
        pyNone pyNone, by
          simp only [List.cons_append, process_task, process_task_tr, hl,
            publishOpt, set_task_response], rfl⟩
    | pyFloat x =>
      exact ⟨mkResponse true (pyFormat (pyFloat x) ++ " completed successfully")
        pyNone pyNone, by
          simp only [List.cons_append, process_task, process_task_tr, hl,
            publishOpt, set_task_response], rfl⟩
    | pyList xs =>
      exact ⟨mkResponse true (pyFormat (pyList xs) ++ " completed successfully")
        pyNone pyNone, by
          simp only [List.cons_append, process_task, process_task_tr, hl,
            publishOpt, set_task_response], rfl⟩
    | pyDict fs =>
      exact ⟨mkResponse true (pyFormat (pyDict fs) ++ " completed successfully")
        pyNone pyNone, by
          simp only [List.cons_append, process_task, process_task_tr, hl,
            publishOpt, set_task_response], rfl⟩

/-- C9: every do_POST branch that enqueues a task renders the awaited
Task Result itself as the JSON body — an envelope carrying its success
and message fields — with HTTP status 200 exactly when the result's
success flag is true and 500 when it is false. -/
theorem post_renders_result_envelope_with_status
    (path : String) (data : List (String × PyVal)) (awaited : PyVal)
    (tuple : List PyVal) (explicit : Option ℚ) (b : Bool) (m : String)
    (hroute : route path data = .ok (.enqueue tuple explicit))
    (hs : pyGet awaited "success" = some (pyBool b))
    (hm : pyGet awaited "message" = some (pyStr m)) :
    (do_POST path data awaited).body = awaited ∧
    pyGet (do_POST path data awaited).body "success" = some (pyBool b) ∧
    pyGet (do_POST path data awaited).body "message" = some (pyStr m) ∧
    (do_POST path data awaited).status = (if b then 200 else 500) ∧
    ((do_POST path data awaited).status = 200 ↔ b = true) := by
  have hb : do_POST path data awaited =
      { status := if truthy ((pyGet awaited "success").getD pyNone) then 200 else 500,
        body := awaited,
        enqueued := some (tuple, resolveTimeout explicit) } := by
    unfold do_POST
    rw [hroute]
  rw [hb]
  refine ⟨rfl, hs, hm, ?_, ?_⟩
  · show (if truthy ((pyGet awaited "success").getD pyNone) then 200 else 500) =
      if b then 200 else 500
    rw [hs]
    cases b <;> simp [truthy]
  · show (if truthy ((pyGet awaited "success").getD pyNone) then 200 else 500) =
      200 ↔ b = true
    rw [hs]
    cases b <;> simp [truthy]

set_option maxHeartbeats 2000000 in
/-- Witness for C9 on the /undo path with a successful result. -/
theorem post_renders_result_envelope_with_status_witness :
    (do_POST "/undo" []
      (mkResponse true "undo completed successfully" pyNone pyNone)).body =
      mkResponse true "undo completed successfully" pyNone pyNone ∧
    pyGet (do_POST "/undo" []
      (mkResponse true "undo completed successfully" pyNone pyNone)).body
      "success" = some (pyBool true) ∧
    pyGet (do_POST "/undo" []
      (mkResponse true "undo completed successfully" pyNone pyNone)).body
      "message" = some (pyStr "undo completed successfully") ∧
    (do_POST "/undo" []
      (mkResponse true "undo completed successfully" pyNone pyNone)).status =
      (if true then 200 else 500) ∧
    ((do_POST "/undo" []
      (mkResponse true "undo completed successfully" pyNone pyNone)).status =
        200 ↔ true = true) := by
  exact post_renders_result_envelope_with_status "/undo" []
    (mkResponse true "undo completed successfully" pyNone pyNone)
    [pyStr "undo"] none true "undo completed successfully" rfl rfl rfl

/-- C5 counterexample: a /draw_cylinder request with no body fields has
its required radius field missing; float(None) raises, the enclosing
except answers with server-error 500 — not with client-error 400 as
claimed — though still without enqueueing a task. -/
theorem missing_required_field_counterexample :
    (do_POST "/draw_cylinder" [] pyNone).status = 500 ∧
    (do_POST "/draw_cylinder" [] pyNone).status ≠ 400 ∧
    (do_POST "/draw_cylinder" [] pyNone).enqueued = none := by
  have e0 : do_POST "/draw_cylinder" [] pyNone =
      { status := 500,
        body := pyDict [("success", pyBool false),
          ("error", pyStr "TypeError: float() argument must be a string or a real number, not NoneType"),
          ("traceback", pyStr (tracebackOf "TypeError: float() argument must be a string or a real number, not NoneType"))],
        enqueued := none } := rfl
  rw [e0]
  exact ⟨rfl, by decide, rfl⟩

/-- C5 (amended): requests with malformed or missing required fields
never enqueue a task, but the response status differs by path: the
/set_parameter branch checks its fields explicitly and answers
client-error 400, while branches that coerce required fields (such as
/draw_cylinder) raise on a missing field and the enclosing except
answers server-error 500 — in both cases the queue and store are
untouched. -/
theorem malformed_request_rejected_before_enqueue
    (data : List (String × PyVal)) (awaited : PyVal)
    (hmiss : (truthy (dataGet data "name" pyNone) &&
      truthy (dataGet data "value" pyNone)) = false)
    (path : String) (d : List (String × PyVal)) (aw : PyVal) (e : String)
    (herr : route path d = .error e) :
    (do_POST "/set_parameter" data awaited).status = 400 ∧
    (do_POST "/set_parameter" data awaited).enqueued = none ∧
    (do_POST "/set_parameter" data awaited).body =
      pyDict [("success", pyBool false),
        ("error", pyStr "Missing name or value")] ∧
    (do_POST path d aw).status = 500 ∧
    (do_POST path d aw).enqueued = none := by
  have hroute : route "/set_parameter" data =
      (if truthy (dataGet data "name" pyNone) &&
          truthy (dataGet data "value" pyNone) then
        Except.ok (RouteResult.enqueue
          [pyStr "set_parameter", dataGet data "name" pyNone,
            dataGet data "value" pyNone] none)
      else
        Except.ok (RouteResult.direct 400 (pyDict
          [("success", pyBool false),
           ("error", pyStr "Missing name or value")]))) := rfl
  have h400 : do_POST "/set_parameter" data awaited =
      { status := 400,
        body := pyDict [("success", pyBool false),
          ("error", pyStr "Missing name or value")],
        enqueued := none } := by
    unfold do_POST
    rw [hroute, hmiss]
    rfl
  have h500 : do_POST path d aw =
      { status := 500,
        body := pyDict [("success", pyBool false), ("error", pyStr e),
          ("traceback", pyStr (tracebackOf e))],
        enqueued := none } := by
    unfold do_POST
    rw [herr]
  rw [h400, h500]
  exact ⟨rfl, rfl, rfl, rfl, rfl⟩

/-- Witness for C5 (amended): an empty /set_parameter body gets 400 with
no enqueue, an empty /draw_cylinder body gets 500 with no enqueue. -/
theorem malformed_request_rejected_before_enqueue_witness :
    (do_POST "/set_parameter" [] pyNone).status = 400 ∧
    (do_POST "/set_parameter" [] pyNone).enqueued = none ∧
    (do_POST "/set_parameter" [] pyNone).body =
      pyDict [("success", pyBool false),
        ("error", pyStr "Missing name or value")] ∧
    (do_POST "/draw_cylinder" [] pyNone).status = 500 ∧
    (do_POST "/draw_cylinder" [] pyNone).enqueued = none := by
  exact malformed_request_rejected_before_enqueue [] pyNone rfl
    "/draw_cylinder" [] pyNone
    "TypeError: float() argument must be a string or a real number, not NoneType"
    rfl

/-- C7 counterexample: the /revolve branch calls queue_task_and_wait
without a timeout argument, so a revolve request — an operation whose
handler blocks on interactive user selection — waits only the default
10 seconds, not a longer 30-35 second timeout as claimed. -/
theorem revolve_timeout_counterexample :
    (do_POST "/revolve" [] pyNone).enqueued =
      some ([pyStr "revolve_profile", pyFloat ((360 : Int) : ℚ)],
        (10 : ℚ)) ∧
    ¬ ((30 : ℚ) ≤ 10 ∧ (10 : ℚ) ≤ 35) := by
  refine ⟨rfl, ?_⟩
  norm_num

/-- C7 (amended): queue_task_and_wait defaults to a 10 second wait; the
/threaded branch (thread creation, interactive face selection) passes an
explicit 30 second timeout, but the /revolve branch (also interactive
selection) passes none and so waits only the default 10 seconds. -/
theorem wait_timeouts_default_and_threaded
    (data₁ data₂ : List (String × PyVal)) (t₁ t₂ : List PyVal)
    (e₁ e₂ : Option ℚ)
    (h₁ : route "/threaded" data₁ = .ok (.enqueue t₁ e₁))
    (h₂ : route "/revolve" data₂ = .ok (.enqueue t₂ e₂)) :
    e₁ = some 30 ∧ resolveTimeout e₁ = 30 ∧
    e₂ = none ∧ resolveTimeout e₂ = 10 ∧
    defaultWaitTimeout = 10 := by
  have hthr : route "/threaded" data₁ =
      Except.bind (pyIntFn (dataGet data₁ "allsizes" (pyInt 30)))
        (fun allsizes => Except.ok (RouteResult.enqueue
          [pyStr "threaded",
           pyBoolFn (dataGet data₁ "inside" (pyBool true)), allsizes]
          (some 30))) := rfl
  have hrev : route "/revolve" data₂ =
      Except.bind (pyFloatFn (dataGet data₂ "angle" (pyInt 360)))
        (fun angle => Except.ok (RouteResult.enqueue
          [pyStr "revolve_profile", angle] none)) := rfl
  rw [hthr] at h₁
  rw [hrev] at h₂
  have he₁ : e₁ = some 30 := by
    rcases hx : pyIntFn (dataGet data₁ "allsizes" (pyInt 30)) with err | v
    · rw [hx] at h₁
      simp [Except.bind] at h₁
    · rw [hx] at h₁
      simp only [Except.bind, Except.ok.injEq,
        RouteResult.enqueue.injEq] at h₁
      exact h₁.2.symm
  have he₂ : e₂ = none := by
    rcases hx : pyFloatFn (dataGet data₂ "angle" (pyInt 360)) with err | v
    · rw [hx] at h₂
      simp [Except.bind] at h₂
    · rw [hx] at h₂
      simp only [Except.bind, Except.ok.injEq,
        RouteResult.enqueue.injEq] at h₂
      exact h₂.2.symm
  subst he₁
  subst he₂
  exact ⟨rfl, rfl, rfl, rfl, rfl⟩

/-- Witness for C7 (amended) with empty request bodies. -/
theorem wait_timeouts_default_and_threaded_witness :
    (some (30 : ℚ) : Option ℚ) = some 30 ∧
    resolveTimeout (some (30 : ℚ)) = 30 ∧
    (none : Option ℚ) = none ∧
    resolveTimeout (none : Option ℚ) = 10 ∧
    defaultWaitTimeout = 10 := by
  exact wait_timeouts_default_and_threaded [] []
    [pyStr "threaded", pyBool true, pyInt 30]
    [pyStr "revolve_profile", pyFloat ((360 : Int) : ℚ)]
    (some 30) none rfl rfl
